import Mathlib

/-!
Shallow embedding of the log-aggregator service (`src/aggregator/main.py`).

The service ingests events over HTTP (`POST /publish`), validates them with a
Pydantic model (`EventPayload`), pushes them onto a Redis list (`LPUSH`), and a
pool of workers (`consumer_worker`) pops them (`BRPOP`, i.e. from the right,
FIFO) and writes them to a Postgres table `processed_events` through
`process_event_transactionally`, a single `INSERT ... ON CONFLICT (topic,
event_id) DO NOTHING` statement.  Duplicates bump a Redis counter
(`stats:duplicates`).  `GET /events` lists stored records, `GET /stats`
combines the three data sources.

External I/O (Postgres, Redis) is modelled by explicit state passing plus
boolean fault flags: a `true` fault flag stands for the corresponding client
call raising an exception.
-/

namespace Aggregator

/-- JSON values, as carried by request bodies and the JSONB payload column. -/
inductive Json where
  | null : Json
  | bool (b : Bool) : Json
  | num (n : Int) : Json
  | str (s : String) : Json
  | arr (xs : List Json) : Json
  | obj (kvs : List (String × Json)) : Json

/-- Validated event, mirroring the Pydantic model `EventPayload`
(fields `topic`, `event_id`, `timestamp`, `source` of type `str`, and
`payload` of type `Dict[str, Any]`). -/
structure Event where
  topic : String
  event_id : String
  timestamp : String
  source : String
  payload : Json

/-- Row of the `processed_events` table: `event_id`, `topic`, `payload`,
`status` (defaulted to `'processed'`), `created_at` (assigned by the store
via `NOW()`, modelled by a logical clock). -/
structure Record where
  event_id : String
  topic : String
  payload : Json
  status : String
  created_at : Nat

/-- State of the Postgres table `processed_events`: its rows plus a logical
clock standing for `NOW()` (strictly increasing across inserts). -/
structure Store where
  rows : List Record
  clock : Nat

/-- Outcome of `process_event_transactionally`: the three string tags the
function returns. -/
inductive ProtoResult where
  | PROCESSED : ProtoResult
  | DUPLICATE : ProtoResult
  | ERROR : ProtoResult
deriving DecidableEq

/-- Predicate tested by the `UNIQUE (topic, event_id)` constraint: does the
table already hold a row with this dedup key? -/
def hasKey (st : Store) (topic event_id : String) : Bool :=
  st.rows.any (fun r => r.topic == topic && r.event_id == event_id)

/-- Row built by the `INSERT INTO processed_events (event_id, topic, payload)`
statement: `status` takes its column default `'processed'` and `created_at`
takes `NOW()`. -/
def mkRecord (ev : Event) (now : Nat) : Record :=
  { event_id := ev.event_id, topic := ev.topic, payload := ev.payload,
    status := "processed", created_at := now }

/-- Embedding of `process_event_transactionally` (main.py lines 63-87):
one `INSERT ... ON CONFLICT (topic, event_id) DO NOTHING`; command tag
`INSERT 0 1` yields `"PROCESSED"`, any other tag (`INSERT 0 0`, the conflict
case) yields `"DUPLICATE"`; every exception is caught, logged and turned into
`"ERROR"` (`fault = true` models the exception, under which the transaction
leaves the table untouched). -/
def process_event_transactionally (fault : Bool) (st : Store) (ev : Event) :
    ProtoResult × Store :=
  if fault then (.ERROR, st)
  else if hasKey st ev.topic ev.event_id then (.DUPLICATE, st)
  else (.PROCESSED, { rows := mkRecord ev st.clock :: st.rows, clock := st.clock + 1 })

/-- One worker handling of a dequeued event (main.py lines 104-113): run the
idempotent write, and on `DUPLICATE` perform the Redis `INCR` on the
duplicate counter (on `PROCESSED` only a worker-local counter moves, on
`ERROR` nothing happens). Returns (protocol result, store, duplicate counter). -/
def processOne (fault : Bool) (st : Store) (cnt : Nat) (ev : Event) :
    ProtoResult × Store × Nat :=
  let pr := process_event_transactionally fault st ev
  (pr.1, pr.2, if pr.1 = .DUPLICATE then cnt + 1 else cnt)

/-- Sequential execution of a list of dequeued events by the worker pool,
fault-free: because each idempotent write is a single atomic statement
serialized by the store, any interleaving of concurrent workers is some
ordering of these atomic steps, i.e. some input list here. -/
def runAll : List Event → Store → Nat → List ProtoResult × Store × Nat
  | [], st, cnt => ([], st, cnt)
  | ev :: rest, st, cnt =>
    let p := processOne false st cnt ev
    let r := runAll rest p.2.1 p.2.2
    (p.1 :: r.1, r.2.1, r.2.2)

/-- Observable effects of one pass of the `consumer_worker` loop (main.py
lines 95-120). -/
structure IterEffect where
  result : Option ProtoResult
  loggedFault : Bool
  backoff : Bool
  continues : Bool

/-- Full system state seen by a worker: the Postgres table, the Redis
duplicate counter (`none` while the key is unset) and the Redis queue
(`LPUSH` prepends, `BRPOP` pops from the right). -/
structure SysState where
  store : Store
  dupCounter : Option Nat
  queue : List Event

/-- Redis `INCR`: an absent key counts as 0, so the first increment yields 1. -/
def incr (c : Option Nat) : Option Nat :=
  some (c.getD 0 + 1)

/-- Embedding of one iteration of the `consumer_worker` loop (main.py lines
95-120).  `loopFault` models an exception raised inside the loop body itself
(e.g. `brpop` failing or `json.loads` failing): that path logs and sleeps one
second (`backoff := true`).  `storeFault` models a store fault inside
`process_event_transactionally`, which that function catches, logs
(`logger.error` at line 86) and converts to the `"ERROR"` result; the worker
then falls through with no further action — no sleep, no re-enqueue — and
loops again.  An empty queue models the `BRPOP` timeout, which just loops. -/
def consumerIteration (loopFault storeFault : Bool) (s : SysState) :
    IterEffect × SysState :=
  if loopFault then
    ({ result := none, loggedFault := true, backoff := true, continues := true }, s)
  else
    match s.queue.getLast? with
    | none =>
      ({ result := none, loggedFault := false, backoff := false, continues := true }, s)
    | some ev =>
      let rest := s.queue.dropLast
      let pr := process_event_transactionally storeFault s.store ev
      let cnt' := if pr.1 = .DUPLICATE then incr s.dupCounter else s.dupCounter
      ({ result := some pr.1, loggedFault := pr.1 = .ERROR, backoff := false,
         continues := true },
       { store := pr.2, dupCounter := cnt', queue := rest })

/-- Raw JSON body of a `POST /publish` request: each field of `EventPayload`
may be absent (`none`) or present with an arbitrary JSON value. -/
structure RawBody where
  topic : Option Json
  event_id : Option Json
  timestamp : Option Json
  source : Option Json
  payload : Option Json

/-- Pydantic check for a required `str` field: present and a JSON string
(Pydantic v2 does not coerce numbers to `str`). -/
def asStr : Option Json → Option String
  | some (.str s) => some s
  | _ => none

/-- Pydantic check for the required `Dict[str, Any]` field: present and a
JSON object. -/
def asObj : Option Json → Option (List (String × Json))
  | some (.obj kvs) => some kvs
  | _ => none

/-- Embedding of the validation FastAPI/Pydantic performs against
`EventPayload` (main.py lines 29-34) before `publish_event` runs: every
field required and type-checked, `none` meaning HTTP 422. -/
def validateEventPayload (b : RawBody) : Option Event :=
  match asStr b.topic, asStr b.event_id, asStr b.timestamp, asStr b.source,
      asObj b.payload with
  | some t, some e, some ts, some src, some p =>
    some { topic := t, event_id := e, timestamp := ts, source := src, payload := .obj p }
  | _, _, _, _, _ => none

/-- Well-typed request body: all five fields present with the type the
Pydantic model declares.  Its negation is the claim wording "missing a
required field or has a mistyped field". -/
def wellTyped (b : RawBody) : Prop :=
  (asStr b.topic).isSome ∧ (asStr b.event_id).isSome ∧ (asStr b.timestamp).isSome ∧
    (asStr b.source).isSome ∧ (asObj b.payload).isSome

/-- HTTP outcome of `POST /publish`: 202 accepted, 422 validation error,
500 infrastructure error. -/
inductive PublishOutcome where
  | accepted (event_id : String) : PublishOutcome
  | validationError : PublishOutcome
  | infraError : PublishOutcome
deriving DecidableEq

/-- Embedding of `POST /publish` (main.py lines 146-158) together with the
framework validation that precedes the handler: on validation failure FastAPI
answers 422 before the handler body (and hence the Redis client) is ever
reached; otherwise the handler does `LPUSH` (prepend) of the serialized event
and answers 202 with the event_id, and a queue fault (`lpush` raising) is
turned into HTTP 500 with no queue entry created. -/
def publish_event (queueFault : Bool) (q : List Event) (b : RawBody) :
    PublishOutcome × List Event :=
  match validateEventPayload b with
  | none => (.validationError, q)
  | some ev =>
    if queueFault then (.infraError, q)
    else (.accepted ev.event_id, ev :: q)

/-- Ordering relation of `ORDER BY created_at DESC`: earlier rows of the
result have the larger creation time. -/
def descCreated (a b : Record) : Prop :=
  b.created_at ≤ a.created_at

instance : DecidableRel descCreated := fun a b => Nat.decLe b.created_at a.created_at

instance : IsTotal Record descCreated :=
  ⟨fun a b => (Nat.le_total b.created_at a.created_at).elim Or.inl Or.inr⟩

instance : IsTrans Record descCreated :=
  ⟨fun _ _ _ h1 h2 => Nat.le_trans h2 h1⟩

/-- Row predicate produced by the filter logic of `get_events` (main.py lines
169-173): the `WHERE topic = $1` clause is added only when the Python value
`topic` is truthy, i.e. present and not the empty string. -/
def topicFilter (topic : Option String) (r : Record) : Bool :=
  match topic with
  | none => true
  | some t => if t = "" then true else r.topic == t

/-- Base text of the `get_events` SQL statement (main.py line 166). -/
def eventsBaseQuery : String :=
  "SELECT event_id, topic, payload, created_at FROM processed_events"

/-- Embedding of the query-text construction in `get_events` (main.py lines
166-174): the SQL text and the bound-argument list (`args`).  The topic value
only ever enters the argument list (as `$1`); the text is one of two fixed
strings, appended from literals. -/
def buildEventsQuery (topic : Option String) : String × List String :=
  match topic with
  | none => (eventsBaseQuery ++ " ORDER BY created_at DESC LIMIT 100", [])
  | some t =>
    if t = "" then (eventsBaseQuery ++ " ORDER BY created_at DESC LIMIT 100", [])
    else (eventsBaseQuery ++ " WHERE topic = $1" ++ " ORDER BY created_at DESC LIMIT 100", [t])

/-- Embedding of `GET /events` (main.py lines 160-182): evaluate the built
query against the table — filter by topic when the `WHERE` clause is present,
sort by `created_at` descending, keep at most `LIMIT 100` rows; a store fault
raises and becomes HTTP 500 (`Except.error`). -/
def get_events (fault : Bool) (st : Store) (topic : Option String) :
    Except Unit (List Record) :=
  if fault then .error ()
  else .ok (((st.rows.filter (topicFilter topic)).insertionSort descCreated).take 100)

/-- Body of a successful `GET /stats` response. -/
structure Stats where
  received : Nat
  unique_processed : Nat
  duplicate_dropped : Nat
  queue_backlog : Nat
  status : String
deriving DecidableEq

/-- Embedding of `GET /stats` (main.py lines 184-203): read `COUNT(*)` from
the table, then `GET stats:duplicates` from Redis (`int(x) if x else 0`, so an
unset key reads as 0), then `LLEN` of the queue; `received` is computed as the
sum of the three.  A fault in any of the three reads raises out of the `try`
and becomes HTTP 500 (`Except.error`); the reads happen in this order, and a
later read is not reached once an earlier one raised. -/
def get_stats (dbFault dupFault queueFault : Bool) (st : Store)
    (dupVal : Option Nat) (queue : List Event) : Except Unit Stats :=
  if dbFault then .error ()
  else
    let u := st.rows.length
    if dupFault then .error ()
    else
      let d := dupVal.getD 0
      if queueFault then .error ()
      else
        let q := queue.length
        .ok { received := u + d + q, unique_processed := u, duplicate_dropped := d,
              queue_backlog := q, status := "healthy" }

/-! Concrete fixtures used by witnesses and counterexamples. -/

/-- Sample event: first submission of the key `("t1", "e1")`. -/
def ev0 : Event :=
  { topic := "t1", event_id := "e1", timestamp := "2024-01-01T00:00:00",
    source := "pytest-script", payload := .obj [("v", .num 1)] }

/-- Resubmission of the key `("t1", "e1")` with a different payload. -/
def ev1 : Event :=
  { topic := "t1", event_id := "e1", timestamp := "2024-01-01T00:00:05",
    source := "pytest-script", payload := .obj [("v", .num 2)] }

/-- System state whose store already holds the key of `ev1` and whose queue
holds `ev1`. -/
def s5 : SysState :=
  { store := { rows := [mkRecord ev0 0], clock := 1 }, dupCounter := none,
    queue := [ev1] }

/-- System state with an empty store and `ev1` queued, used with a faulting
store. -/
def s6 : SysState :=
  { store := { rows := [], clock := 0 }, dupCounter := none, queue := [ev1] }

/-- Publish body whose required `topic` field is absent. -/
def bBad : RawBody :=
  { topic := none, event_id := some (.str "e9"), timestamp := some (.str "ts"),
    source := some (.str "s"), payload := some (.obj []) }

/-- Publish body with the empty string as `topic` and every field well typed. -/
def emptyTopicBody : RawBody :=
  { topic := some (.str ""), event_id := some (.str "e1"),
    timestamp := some (.str "2024-01-01T00:00:00"),
    source := some (.str "pytest-script"), payload := some (.obj []) }

/-- Two-topic table used to exhibit the empty-filter behavior. -/
def demoStore : Store :=
  { rows :=
      [ { event_id := "e1", topic := "a", payload := .obj [], status := "processed",
          created_at := 0 },
        { event_id := "e2", topic := "b", payload := .obj [], status := "processed",
          created_at := 1 } ],
    clock := 2 }

/-! Helper lemmas shared between claims. -/

/-- When `process_event_transactionally` answers `ERROR` the table is
untouched (the transaction never committed anything). -/
theorem pet_error_store_eq (fault : Bool) (st : Store) (ev : Event)
    (h : (process_event_transactionally fault st ev).1 = .ERROR) :
    (process_event_transactionally fault st ev).2 = st := by
  cases fault with
  | true => simp [process_event_transactionally]
  | false =>
    cases hk : hasKey st ev.topic ev.event_id with
    | true => simp [process_event_transactionally, hk]
    | false => simp [process_event_transactionally, hk] at h

/-- C1: the idempotent-write protocol `process_event_transactionally` is a
single conflict-aware insert keyed by (topic, event_id): it returns
`PROCESSED` exactly when no fault occurred and the key was absent (and then
exactly one new record is created), `DUPLICATE` exactly when no fault occurred
and a record with that key already existed (store untouched), and `ERROR`
exactly when the operation faulted (store untouched); these three tagged
outcomes are its only results and the function never raises (every exception
is caught and tagged). -/
theorem process_event_outcomes (fault : Bool) (st : Store) (ev : Event) :
    ((process_event_transactionally fault st ev).1 = .PROCESSED ∨
     (process_event_transactionally fault st ev).1 = .DUPLICATE ∨
     (process_event_transactionally fault st ev).1 = .ERROR) ∧
    ((process_event_transactionally fault st ev).1 = .PROCESSED ↔
      fault = false ∧ hasKey st ev.topic ev.event_id = false) ∧
    ((process_event_transactionally fault st ev).1 = .DUPLICATE ↔
      fault = false ∧ hasKey st ev.topic ev.event_id = true) ∧
    ((process_event_transactionally fault st ev).1 = .ERROR ↔ fault = true) ∧
    ((process_event_transactionally fault st ev).1 = .PROCESSED →
      (process_event_transactionally fault st ev).2 =
        { rows := mkRecord ev st.clock :: st.rows, clock := st.clock + 1 }) ∧
    ((process_event_transactionally fault st ev).1 ≠ .PROCESSED →
      (process_event_transactionally fault st ev).2 = st) := by
  cases fault with
  | true => simp [process_event_transactionally]
  | false =>
    cases hk : hasKey st ev.topic ev.event_id with
    | true => simp [process_event_transactionally, hk]
    | false => simp [process_event_transactionally, hk]

/-- Witness instantiating `process_event_outcomes`: on the empty store the
insert of `ev0` reports `PROCESSED`. -/
theorem process_event_outcomes_witness :
    (process_event_transactionally false { rows := [], clock := 0 } ev0).1 =
      .PROCESSED :=
  (process_event_outcomes false { rows := [], clock := 0 } ev0).2.1.mpr ⟨rfl, rfl⟩

/-- C5: in one pass of the consumer loop the duplicate counter is changed
only when the protocol answers `DUPLICATE`, and then by exactly one atomic
`INCR`; on `PROCESSED`, on `ERROR`, on an empty-queue timeout and on a loop
fault it is left unchanged. -/
theorem dup_counter_frame (loopFault storeFault : Bool) (s : SysState) :
    ((consumerIteration loopFault storeFault s).1.result = some .DUPLICATE →
      (consumerIteration loopFault storeFault s).2.dupCounter =
        some (s.dupCounter.getD 0 + 1)) ∧
    ((consumerIteration loopFault storeFault s).1.result ≠ some .DUPLICATE →
      (consumerIteration loopFault storeFault s).2.dupCounter = s.dupCounter) := by
  cases loopFault with
  | true => simp [consumerIteration]
  | false =>
    cases hq : s.queue.getLast? with
    | none => simp [consumerIteration, hq]
    | some ev =>
      cases hr : (process_event_transactionally storeFault s.store ev).1 with
      | PROCESSED => simp [consumerIteration, hq, hr, incr]
      | DUPLICATE => simp [consumerIteration, hq, hr, incr]
      | ERROR => simp [consumerIteration, hq, hr, incr]

/-- Witness instantiating `dup_counter_frame`: popping the duplicate `ev1`
bumps the unset counter to 1. -/
theorem dup_counter_frame_witness :
    (consumerIteration false false s5).2.dupCounter = some 1 :=
  (dup_counter_frame false false s5).1 rfl

/-- C6 counterexample: with the store faulting, the iteration popping `ev0`
obtains the `ERROR` result yet performs no backoff, refuting the claim that
the worker continues "after a short backoff" on protocol `ERROR` (the
one-second sleep runs only for exceptions raised by the loop body itself). -/
theorem worker_error_no_backoff_cex :
    (consumerIteration false true
        { store := { rows := [], clock := 0 }, dupCounter := none,
          queue := [ev0] }).1.result = some .ERROR ∧
    (consumerIteration false true
        { store := { rows := [], clock := 0 }, dupCounter := none,
          queue := [ev0] }).1.backoff = false :=
  ⟨rfl, rfl⟩

/-- C6 amended: on protocol result `ERROR` the fault has been logged (by
`process_event_transactionally` itself), the worker continues its loop, and
the failed item is dropped — removed from the queue and not re-enqueued, with
store and duplicate counter untouched — but with no backoff: the one-second
sleep applies only to exceptions raised inside the worker loop body, and the
caught-and-tagged `ERROR` result is not one. -/
theorem worker_error_drops_item (storeFault : Bool) (s : SysState)
    (h : (consumerIteration false storeFault s).1.result = some .ERROR) :
    (consumerIteration false storeFault s).1.loggedFault = true ∧
    (consumerIteration false storeFault s).1.continues = true ∧
    (consumerIteration false storeFault s).1.backoff = false ∧
    (consumerIteration false storeFault s).2.queue = s.queue.dropLast ∧
    (consumerIteration false storeFault s).2.store = s.store ∧
    (consumerIteration false storeFault s).2.dupCounter = s.dupCounter := by
  cases hq : s.queue.getLast? with
  | none => simp [consumerIteration, hq] at h
  | some ev =>
    cases hr : (process_event_transactionally storeFault s.store ev).1 with
    | PROCESSED => simp [consumerIteration, hq, hr] at h
    | DUPLICATE => simp [consumerIteration, hq, hr] at h
    | ERROR =>
      have hst := pet_error_store_eq storeFault s.store ev hr
      simp [consumerIteration, hq, hr, hst]

/-- Witness instantiating `worker_error_drops_item` at a concrete faulting
iteration. -/
theorem worker_error_drops_item_witness :
    (consumerIteration false true s6).1.loggedFault = true ∧
    (consumerIteration false true s6).1.continues = true ∧
    (consumerIteration false true s6).1.backoff = false ∧
    (consumerIteration false true s6).2.queue = s6.queue.dropLast ∧
    (consumerIteration false true s6).2.store = s6.store ∧
    (consumerIteration false true s6).2.dupCounter = s6.dupCounter :=
  worker_error_drops_item true s6 rfl

/-- C7: a publish body missing a required field or carrying a mistyped field
is rejected with the validation error before any queue interaction: for every
queue state and every queue-fault value, the outcome is the 422 validation
error and the queue is unchanged (the rejection has no side effects). -/
theorem publish_rejects_malformed (queueFault : Bool) (q : List Event)
    (b : RawBody) (h : ¬ wellTyped b) :
    publish_event queueFault q b = (.validationError, q) := by
  have hv : validateEventPayload b = none := by
    unfold validateEventPayload
    cases h1 : asStr b.topic <;> cases h2 : asStr b.event_id <;>
      cases h3 : asStr b.timestamp <;> cases h4 : asStr b.source <;>
        cases h5 : asObj b.payload <;> simp_all [wellTyped]
  simp [publish_event, hv]

/-- Witness instantiating `publish_rejects_malformed` on a body missing
`topic`. -/
theorem publish_rejects_malformed_witness :
    publish_event false [] bBad = (.validationError, []) :=
  publish_rejects_malformed false [] bBad (by simp [wellTyped, bBad, asStr])

/-- C8 counterexample: a publish whose `topic` is the empty string is not
rejected: it is accepted with 202 and a queue entry is created, refuting the
claimed non-emptiness validation. -/
theorem publish_accepts_empty_topic_cex :
    publish_event false [] emptyTopicBody =
      (.accepted "e1",
       [{ topic := "", event_id := "e1", timestamp := "2024-01-01T00:00:00",
          source := "pytest-script", payload := .obj [] }]) :=
  rfl

/-- C8 amended: the intake type-checks `topic` and `event_id` as strings but
enforces no non-emptiness: any string values — the empty string included —
pass validation and the event is acknowledged with 202 and queued. -/
theorem publish_accepts_any_strings (t e ts src : String)
    (p : List (String × Json)) (q : List Event) :
    publish_event false q
        { topic := some (.str t), event_id := some (.str e),
          timestamp := some (.str ts), source := some (.str src),
          payload := some (.obj p) } =
      (.accepted e,
       { topic := t, event_id := e, timestamp := ts, source := src,
         payload := .obj p } :: q) :=
  rfl

/-- C10: a present-but-empty `topic` query parameter is falsy in Python, so
the `WHERE` clause is never added: the response equals the unfiltered one for
every store and fault value; on a concrete two-topic table the code's filter
keeps every row, while a literal exact match against the empty string would
have selected none. -/
theorem empty_topic_filter_ignored (fault : Bool) (st : Store) :
    (get_events fault st (some "") = get_events fault st none) ∧
    demoStore.rows.filter (topicFilter (some "")) = demoStore.rows ∧
    demoStore.rows.filter (fun r => r.topic == "") = [] :=
  ⟨rfl, rfl, rfl⟩

/-- Fresh insert makes its key present in the table. -/
theorem hasKey_insert (st : Store) (ev : Event) (now c : Nat) :
    hasKey { rows := mkRecord ev now :: st.rows, clock := c }
      ev.topic ev.event_id = true := by
  simp [hasKey, mkRecord]

/-- Once the key is present, every further same-key event is reported
`DUPLICATE`, the table never changes, and the duplicate counter is bumped
once per event. -/
theorem runAll_all_dup (topic eid : String) (evs : List Event) (st : Store)
    (cnt : Nat) (hkey : ∀ e ∈ evs, e.topic = topic ∧ e.event_id = eid)
    (hpres : hasKey st topic eid = true) :
    (runAll evs st cnt).1 = evs.map (fun _ => ProtoResult.DUPLICATE) ∧
    (runAll evs st cnt).2.1 = st ∧
    (runAll evs st cnt).2.2 = cnt + evs.length := by
  induction evs generalizing cnt with
  | nil => simp [runAll]
  | cons e rest ih =>
    obtain ⟨ht, he⟩ := hkey e (List.mem_cons_self e rest)
    have hk : hasKey st e.topic e.event_id = true := by rw [ht, he]; exact hpres
    have ihr := ih (cnt + 1) (fun x hx => hkey x (List.mem_cons_of_mem e hx))
    refine ⟨?_, ?_, ?_⟩ <;>
      simp [runAll, processOne, process_event_transactionally, hk,
        ihr.1, ihr.2.1, ihr.2.2]
    omega

/-- C2: submitting the same (topic, event_id) key N ≥ 1 times with arbitrary
payloads, starting from a table without the key, leaves exactly one Stored
Record for that key — the one created by the first write, carrying the first
payload, never overwritten — and performs exactly N−1 duplicate-counter
increments. -/
theorem first_write_wins (ev : Event) (evs : List Event) (st : Store) (cnt : Nat)
    (hkey : ∀ e ∈ ev :: evs, e.topic = ev.topic ∧ e.event_id = ev.event_id)
    (habs : hasKey st ev.topic ev.event_id = false) :
    (runAll (ev :: evs) st cnt).2.1.rows = mkRecord ev st.clock :: st.rows ∧
    ((runAll (ev :: evs) st cnt).2.1.rows.filter
        (fun r => r.topic == ev.topic && r.event_id == ev.event_id)) =
      [mkRecord ev st.clock] ∧
    (runAll (ev :: evs) st cnt).2.2 = cnt + evs.length := by
  have hdup := runAll_all_dup ev.topic ev.event_id evs
      { rows := mkRecord ev st.clock :: st.rows, clock := st.clock + 1 } cnt
      (fun x hx => hkey x (List.mem_cons_of_mem ev hx))
      (hasKey_insert st ev st.clock (st.clock + 1))
  have hanys : st.rows.any
      (fun r => r.topic == ev.topic && r.event_id == ev.event_id) = false := habs
  have hnone : st.rows.filter
      (fun r => r.topic == ev.topic && r.event_id == ev.event_id) = [] :=
    List.filter_eq_nil_iff.mpr (List.any_eq_false.mp hanys)
  have hrows : (runAll (ev :: evs) st cnt).2.1 =
      { rows := mkRecord ev st.clock :: st.rows, clock := st.clock + 1 } := by
    simp [runAll, processOne, process_event_transactionally, habs, hdup.2.1]
  have hcnt : (runAll (ev :: evs) st cnt).2.2 = cnt + evs.length := by
    simp [runAll, processOne, process_event_transactionally, habs, hdup.2.2]
  refine ⟨by rw [hrows], ?_, hcnt⟩
  rw [hrows]
  simp [List.filter_cons, mkRecord, hnone]

/-- Witness instantiating `first_write_wins`: `ev0` then its duplicate `ev1`
leave only the record of `ev0` (payload of `ev0`) and one counter bump. -/
theorem first_write_wins_witness :
    (runAll [ev0, ev1] { rows := [], clock := 0 } 0).2.1.rows =
      [mkRecord ev0 0] ∧
    ((runAll [ev0, ev1] { rows := [], clock := 0 } 0).2.1.rows.filter
        (fun r => r.topic == ev0.topic && r.event_id == ev0.event_id)) =
      [mkRecord ev0 0] ∧
    (runAll [ev0, ev1] { rows := [], clock := 0 } 0).2.2 = 1 :=
  first_write_wins ev0 [ev1] { rows := [], clock := 0 } 0
    (by
      intro e he
      simp only [List.mem_cons, List.mem_singleton, List.not_mem_nil, or_false] at he
      rcases he with rfl | rfl
      · exact ⟨rfl, rfl⟩
      · exact ⟨rfl, rfl⟩)
    rfl

/-- Counting over the all-`DUPLICATE` tail of the protocol results. -/
theorem count_const_dup (n : Nat) :
    ((List.replicate n ProtoResult.DUPLICATE).count ProtoResult.DUPLICATE = n) ∧
    ((List.replicate n ProtoResult.DUPLICATE).count ProtoResult.PROCESSED = 0) := by
  simp [List.count_replicate]

/-- C3: for any serialization of M ≥ 1 concurrent attempts at the same fresh
(topic, event_id) key — each attempt one atomic conflict-aware insert, so any
interleaving is some ordering of them — exactly one attempt obtains
`PROCESSED` and the other M−1 obtain `DUPLICATE`; two `PROCESSED` outcomes
for one key are impossible. -/
theorem exactly_one_processed (ev : Event) (evs : List Event) (st : Store)
    (cnt : Nat)
    (hkey : ∀ e ∈ ev :: evs, e.topic = ev.topic ∧ e.event_id = ev.event_id)
    (habs : hasKey st ev.topic ev.event_id = false) :
    (runAll (ev :: evs) st cnt).1.count ProtoResult.PROCESSED = 1 ∧
    (runAll (ev :: evs) st cnt).1.count ProtoResult.DUPLICATE =
      (ev :: evs).length - 1 := by
  have hdup := runAll_all_dup ev.topic ev.event_id evs
      { rows := mkRecord ev st.clock :: st.rows, clock := st.clock + 1 } cnt
      (fun x hx => hkey x (List.mem_cons_of_mem ev hx))
      (hasKey_insert st ev st.clock (st.clock + 1))
  have hres : (runAll (ev :: evs) st cnt).1 =
      ProtoResult.PROCESSED :: evs.map (fun _ => ProtoResult.DUPLICATE) := by
    simp [runAll, processOne, process_event_transactionally, habs, hdup.1]
  rw [hres]
  refine ⟨?_, ?_⟩ <;>
    simp [List.count_cons, (count_const_dup evs.length).1,
      (count_const_dup evs.length).2]

/-- Witness instantiating `exactly_one_processed` on two racing submissions
of the key `("t1", "e1")`. -/
theorem exactly_one_processed_witness :
    (runAll [ev0, ev1] { rows := [], clock := 0 } 0).1.count
      ProtoResult.PROCESSED = 1 ∧
    (runAll [ev0, ev1] { rows := [], clock := 0 } 0).1.count
      ProtoResult.DUPLICATE = 1 :=
  exactly_one_processed ev0 [ev1] { rows := [], clock := 0 } 0
    (by
      intro e he
      simp only [List.mem_cons, List.mem_singleton, List.not_mem_nil, or_false] at he
      rcases he with rfl | rfl
      · exact ⟨rfl, rfl⟩
      · exact ⟨rfl, rfl⟩)
    rfl

/-- C4: every successful `GET /stats` answer is built so that
`received = unique_processed + duplicate_dropped + queue_backlog`, with
`unique_processed` the table's row count, `duplicate_dropped` the duplicate
counter (0 while the Redis key is unset) and `queue_backlog` the queue
length; a fault in any of the three reads makes the endpoint fail with the
infrastructure error instead of substituting partial or default values. -/
theorem get_stats_contract (dbF dupF qF : Bool) (st : Store) (dv : Option Nat)
    (queue : List Event) :
    ((dbF = false ∧ dupF = false ∧ qF = false) →
      get_stats dbF dupF qF st dv queue =
        .ok { received := st.rows.length + dv.getD 0 + queue.length,
              unique_processed := st.rows.length,
              duplicate_dropped := dv.getD 0,
              queue_backlog := queue.length, status := "healthy" }) ∧
    (∀ s, get_stats dbF dupF qF st dv queue = .ok s →
      s.received = s.unique_processed + s.duplicate_dropped + s.queue_backlog) ∧
    ((dbF = true ∨ dupF = true ∨ qF = true) →
      get_stats dbF dupF qF st dv queue = .error ()) := by
  cases dbF <;> cases dupF <;> cases qF <;> simp [get_stats]

/-- Witness instantiating `get_stats_contract` on the empty system: all
counts 0 and the conservation equation holds. -/
theorem get_stats_contract_witness :
    get_stats false false false { rows := [], clock := 0 } none [] =
      .ok { received := 0, unique_processed := 0, duplicate_dropped := 0,
            queue_backlog := 0, status := "healthy" } :=
  (get_stats_contract false false false { rows := [], clock := 0 } none []).1
    ⟨rfl, rfl, rfl⟩

/-- C9: every successful `GET /events` answer holds at most 100 records,
ordered by creation time descending; under a non-empty topic filter every
returned record's topic equals the filter value exactly; the topic value
travels only in the bound-argument list while the SQL text is one fixed
string; and a filter matching no rows yields the empty collection, not an
error. -/
theorem get_events_contract (st : Store) (t? : Option String) :
    ∃ l, get_events false st t? = .ok l ∧
      l.length ≤ 100 ∧
      List.Sorted descCreated l ∧
      (∀ t, t? = some t → t ≠ "" → ∀ r ∈ l, r.topic = t) ∧
      (st.rows.filter (topicFilter t?) = [] → l = []) ∧
      (∀ t u, t ≠ "" → u ≠ "" →
        (buildEventsQuery (some t)).1 = (buildEventsQuery (some u)).1 ∧
        (buildEventsQuery (some t)).2 = [t]) := by
  refine ⟨_, rfl, ?_, ?_, ?_, ?_, ?_⟩
  · simp [List.length_take]
  · exact List.Pairwise.sublist (List.take_sublist _ _)
      (List.sorted_insertionSort descCreated _)
  · intro t ht ht0 r hr
    have hmem : r ∈ (st.rows.filter (topicFilter t?)).insertionSort descCreated :=
      List.Sublist.mem hr (List.take_sublist _ _)
    have hfil : r ∈ st.rows.filter (topicFilter t?) :=
      (List.perm_insertionSort descCreated _).mem_iff.mp hmem
    have := (List.mem_filter.mp hfil).2
    rw [ht] at this
    simpa [topicFilter, ht0] using this
  · intro h
    simp [h]
  · intro t u ht hu
    simp [buildEventsQuery, ht, hu]

/-- Witness instantiating `get_events_contract` on the two-topic table with
filter `"a"`. -/
theorem get_events_contract_witness :
    ∃ l, get_events false demoStore (some "a") = .ok l ∧
      l.length ≤ 100 ∧
      List.Sorted descCreated l ∧
      (∀ t, (some "a" : Option String) = some t → t ≠ "" → ∀ r ∈ l, r.topic = t) ∧
      (demoStore.rows.filter (topicFilter (some "a")) = [] → l = []) ∧
      (∀ t u, t ≠ "" → u ≠ "" →
        (buildEventsQuery (some t)).1 = (buildEventsQuery (some u)).1 ∧
        (buildEventsQuery (some t)).2 = [t]) :=
  get_events_contract demoStore (some "a")

end Aggregator
